import Mathlib

/-!
Verification of the AI adventure game engine (src/src/game_engine.py and
src/src/config.py) against its design specification.

The Python code is shallowly embedded: the mutable `GameEngine` object becomes
an explicit state record, the LLM chat backend and the file system become an
`Env` record of oracle functions, and Python exceptions become `Except` values.
Each embedded definition keeps the name and the control flow of the source
function it models; comments cite the source lines.
-/

namespace AdventureGame

/-- Provider enumeration, from `config.py` lines 13-16 (`class ChatProvider`). -/
inductive ChatProvider
  | OPENAI
  | OPENROUTER
  | LLAMA
deriving DecidableEq, Repr

/-- Configuration record, from `config.py` lines 18-43 (`ChatConfig.__init__`).
Token-price values are modelled as exact rationals; `api_key` and `base_url`
are `Option String` because Python uses `None` defaults. -/
structure ChatConfig where
  provider : ChatProvider := ChatProvider.OPENROUTER
  openrouter_model : String := "gryphe/mythomax-l2-13b:free"
  openai_model : String := "gpt-4o-mini"
  llama_model : String := "cloud-sambanova-llama-3-405b-instruct"
  system_prompt_path : String := "templates/system_prompt.md"
  max_history : Nat := 10
  api_key : Option String := none
  base_url : Option String := none
deriving DecidableEq, Repr

/-- Message roles: `SystemMessage`, `HumanMessage`, `AIMessage` from langchain,
as used in `game_engine.py`. -/
inductive Role
  | system
  | human
  | ai
deriving DecidableEq, Repr

/-- A chat message: role plus content. -/
structure Message where
  role : Role
  content : String
deriving DecidableEq, Repr

/-- The mutable state of `GameEngine` (`game_engine.py` lines 11-24):
the transcript `self.messages`, the cached `self.state_message`
(`None` initially), and the session token counters. -/
structure GameEngine where
  config : ChatConfig
  messages : List Message
  state_message : Option String
  total_input_tokens : Nat
  total_output_tokens : Nat

/-- The external world seen by the engine: prompt files on disk
(`_load_prompt`, may fail with FileNotFoundError), the three LLM chains built
in `_setup_chains`, and the token counts reported by the callback for one
turn.  Each chain may fail, modelling a backend invocation raising. -/
structure Env where
  files : String → Except String String
  character_chain : Except String String
  story_chain : String → Option String → String → Except String String
  state_chain : String → Except String String
  prompt_tokens : Nat
  completion_tokens : Nat

/-- `GameEngine._format_conversation_history` (`game_engine.py` lines 57-71):
render messages (from `start_idx` on when `skip_system`) one per line as
`"User: c"` for a `HumanMessage` and `"Assistant: c"` for anything else,
joined with newlines. -/
def format_conversation_history (messages : List Message)
    (skip_system : Bool) (start_idx : Nat) : String :=
  let messages_to_format := if skip_system then messages.drop start_idx else messages
  String.intercalate "\n"
    (messages_to_format.map (fun msg =>
      (if msg.role = Role.human then "User" else "Assistant") ++ ": " ++ msg.content))

/-- Return value of `initialize_game`: the dict
`{"options": ..., "initial_story": ...}`. -/
structure InitResult where
  options : String
  initial_story : String
deriving DecidableEq, Repr

/-- `GameEngine.initialize_game` (`game_engine.py` lines 73-123).  Returns the
Python return value (or the propagated exception) together with the resulting
engine state; on an exception the state reflects exactly the mutations already
applied, as in Python.  Note line 93: the character selection is always
appended once `character_selection` is truthy, including for the sentinel
string. -/
def initialize_game (env : Env) (g : GameEngine)
    (character_selection : Option String) :
    Except String InitResult × GameEngine :=
  match env.character_chain with
  | Except.error e => (Except.error e, g)
  | Except.ok options_text =>
    match env.files g.config.system_prompt_path with
    | Except.error e => (Except.error e, g)
    | Except.ok sys_text =>
      match env.files "templates/character_setting_setup.md" with
      | Except.error e => (Except.error e, g)
      | Except.ok setup_text =>
        let msgs0 : List Message :=
          [Message.mk Role.system sys_text,
           Message.mk Role.human setup_text,
           Message.mk Role.ai options_text]
        match character_selection with
        | none =>
          (Except.ok (InitResult.mk options_text ""), { g with messages := msgs0 })
        | some sel =>
          if sel = "" then
            (Except.ok (InitResult.mk options_text ""), { g with messages := msgs0 })
          else
            let msgs1 := msgs0 ++ [Message.mk Role.human sel]
            if sel ≠ "Start the adventure!" then
              let msgs2 := msgs1 ++
                [Message.mk Role.human
                  "Start the adventure with the selected character and setting!"]
              let history := format_conversation_history msgs2 true 1
              match env.story_chain history g.state_message
                  "Start the adventure with the selected character and setting!" with
              | Except.error e => (Except.error e, { g with messages := msgs2 })
              | Except.ok initial_story =>
                (Except.ok (InitResult.mk options_text initial_story),
                 { g with messages := msgs2 ++ [Message.mk Role.ai initial_story] })
            else
              (Except.ok (InitResult.mk options_text ""), { g with messages := msgs1 })

/-- The history-maintenance step of `process_turn`
(`game_engine.py` lines 158-163): when the transcript exceeds `max_history`,
keep `messages[0]` plus the last `max(4, max_history)` entries.
`msgs.take 1` is `[msgs[0]]` (the list is nonempty whenever the branch fires),
and `msgs.drop (msgs.length - keep_count)` is the Python slice
`msgs[-keep_count:]`. -/
def truncate_messages (max_history : Nat) (msgs : List Message) : List Message :=
  if msgs.length > max_history then
    let min_messages_to_keep : Nat := 4
    let keep_count := max min_messages_to_keep max_history
    msgs.take 1 ++ msgs.drop (msgs.length - keep_count)
  else
    msgs

/-- `GameEngine.process_turn` (`game_engine.py` lines 125-169).  Returns the
returned story text (or the propagated exception, re-raised by the
`except` clause) together with the resulting engine state.  The user message
is appended first; an exception in either chain leaves that append in place
and everything else untouched.  Token counters are only updated when both
chain calls inside the callback block succeed. -/
def process_turn (env : Env) (g : GameEngine) (user_input : String) :
    Except String String × GameEngine :=
  let msgs_u := g.messages ++ [Message.mk Role.human user_input]
  let history := format_conversation_history msgs_u true 1
  match env.story_chain history g.state_message user_input with
  | Except.error e => (Except.error e, { g with messages := msgs_u })
  | Except.ok story_text =>
    match env.state_chain (history ++ "\n\n" ++ story_text) with
    | Except.error e => (Except.error e, { g with messages := msgs_u })
    | Except.ok current_state =>
      let msgs_a := msgs_u ++ [Message.mk Role.ai story_text]
      (Except.ok story_text,
       { g with
         messages := truncate_messages g.config.max_history msgs_a,
         state_message := some current_state,
         total_input_tokens := g.total_input_tokens + env.prompt_tokens,
         total_output_tokens := g.total_output_tokens + env.completion_tokens })

/-- `str(provider)` for a Python enum member, as interpolated into the
`ValueError` message of `get_api_key`. -/
def providerStr : ChatProvider → String
  | ChatProvider.OPENAI => "ChatProvider.OPENAI"
  | ChatProvider.OPENROUTER => "ChatProvider.OPENROUTER"
  | ChatProvider.LLAMA => "ChatProvider.LLAMA"

/-- The `api_key_map` dict of `ChatConfig.get_api_key`
(`config.py` lines 51-55). -/
def api_key_map : ChatProvider → String
  | ChatProvider.OPENROUTER => "OPENROUTER_API_KEY"
  | ChatProvider.OPENAI => "OPENAI_API_KEY"
  | ChatProvider.LLAMA => "PARASAIL_API_KEY"

/-- The environment-variable fallback of `ChatConfig.get_api_key`
(`config.py` lines 50-59): `os.getenv` of the mapped variable; `None` or the
empty string (both falsy under `if not env_key`) raise the `ValueError`. -/
def env_api_key (env_vars : String → Option String) (cfg : ChatConfig) :
    Except String String :=
  match env_vars (api_key_map cfg.provider) with
  | none => Except.error ("Missing API key for provider " ++ providerStr cfg.provider)
  | some k =>
    if k = "" then
      Except.error ("Missing API key for provider " ++ providerStr cfg.provider)
    else
      Except.ok k

/-- `ChatConfig.get_api_key` (`config.py` lines 45-59).  `if self.api_key:`
is Python truthiness, so `None` and `""` both fall through to the
environment lookup. -/
def get_api_key (env_vars : String → Option String) (cfg : ChatConfig) :
    Except String String :=
  match cfg.api_key with
  | some k => if k = "" then env_api_key env_vars cfg else Except.ok k
  | none => env_api_key env_vars cfg

/-- `ChatConfig.get_base_url` (`config.py` lines 61-70), environment part:
only the LLAMA provider requires `PARASAIL_BASE_URL`; absence (or an empty,
falsy value) raises. -/
def env_base_url (env_vars : String → Option String) (cfg : ChatConfig) :
    Except String (Option String) :=
  if cfg.provider = ChatProvider.LLAMA then
    match env_vars "PARASAIL_BASE_URL" with
    | none => Except.error "Missing PARASAIL_BASE_URL in environment variables"
    | some b =>
      if b = "" then Except.error "Missing PARASAIL_BASE_URL in environment variables"
      else Except.ok (some b)
  else
    Except.ok none

/-- `ChatConfig.get_base_url` (`config.py` lines 61-70). -/
def get_base_url (env_vars : String → Option String) (cfg : ChatConfig) :
    Except String (Option String) :=
  match cfg.base_url with
  | some b => if b = "" then env_base_url env_vars cfg else Except.ok (some b)
  | none => env_base_url env_vars cfg

/-- `ChatConfig.get_model_name` (`config.py` lines 72-78). -/
def get_model_name (cfg : ChatConfig) : String :=
  if cfg.provider = ChatProvider.OPENROUTER then cfg.openrouter_model
  else if cfg.provider = ChatProvider.LLAMA then cfg.llama_model
  else cfg.openai_model

/-- The observable construction data of a chat provider instance
(`ChatOpenAIProvider` / `ChatOpenRouter` constructor arguments). -/
structure ProviderInstance where
  provider : ChatProvider
  model_name : String
  api_key : String
  base_url : Option String
deriving DecidableEq, Repr

/-- `ChatConfig.get_chat_provider` (`config.py` lines 80-106): resolves model
name, API key and base URL (any `ValueError` from those propagates), then
builds the provider instance; only the LLAMA branch passes the base URL. -/
def get_chat_provider (env_vars : String → Option String) (cfg : ChatConfig) :
    Except String ProviderInstance :=
  let model_name := get_model_name cfg
  match get_api_key env_vars cfg with
  | Except.error e => Except.error e
  | Except.ok api_key =>
    match get_base_url env_vars cfg with
    | Except.error e => Except.error e
    | Except.ok base_url =>
      match cfg.provider with
      | ChatProvider.LLAMA =>
        Except.ok (ProviderInstance.mk cfg.provider model_name api_key base_url)
      | ChatProvider.OPENAI =>
        Except.ok (ProviderInstance.mk cfg.provider model_name api_key none)
      | ChatProvider.OPENROUTER =>
        Except.ok (ProviderInstance.mk cfg.provider model_name api_key none)

/-- The heterogeneous value returned by `ChatConfig.get_token_costs`: either a
flat `{"input": ..., "output": ...}` dict (LLAMA, OPENROUTER) or, for OPENAI,
a dict keyed by model names whose values are per-model price pairs. -/
inductive TokenCosts
  | flat (input_price output_price : ℚ)
  | per_model (table : List (String × ℚ × ℚ))
deriving DecidableEq, Repr

/-- `ChatConfig.get_token_costs` (`config.py` lines 108-120).  The
`costs.get(provider, default)` fallback is dead: all three enum members are
keys of the dict. -/
def get_token_costs (cfg : ChatConfig) : TokenCosts :=
  match cfg.provider with
  | ChatProvider.OPENAI =>
    TokenCosts.per_model
      [("gpt-4o-mini", 0.00015, 0.0006),
       ("gpt-4o", 0.005, 0.015),
       ("o1-mini", 0.003, 0.012),
       ("o1", 0.015, 0.06)]
  | ChatProvider.LLAMA => TokenCosts.flat 0 0
  | ChatProvider.OPENROUTER => TokenCosts.flat 0.001 0.002

/-- Python dict indexing `costs[key]` as performed by `get_token_stats` with
`key` one of `"input"`, `"output"`.  On the OPENAI per-model table those keys
are absent (its keys are the four model names), so indexing raises `KeyError`. -/
def costs_lookup : TokenCosts → String → Except String ℚ
  | TokenCosts.flat input_price output_price, key =>
    if key = "input" then Except.ok input_price
    else if key = "output" then Except.ok output_price
    else Except.error ("KeyError: " ++ key)
  | TokenCosts.per_model _, key => Except.error ("KeyError: " ++ key)

/-- Python `round(x, 4)`.  Modelled as rounding to the nearest multiple of
`1/10000`; Python uses round-half-even on binary floats, which agrees except
possibly at exact ties, which none of the claims rely on. -/
def round4 (x : ℚ) : ℚ := (round (x * 10000) : ℤ) / 10000

/-- The dict returned by `GameEngine.get_token_stats`. -/
structure TokenStats where
  input_tokens : Nat
  output_tokens : Nat
  total_tokens : Nat
  estimated_cost : ℚ
deriving DecidableEq, Repr

/-- `GameEngine.get_token_stats` (`game_engine.py` lines 171-182): reads the
cost table, indexes it with `"input"` and `"output"` (which raises `KeyError`
for the OPENAI table), and otherwise returns the aggregated counts with
`round(cost, 4)`. -/
def get_token_stats (g : GameEngine) : Except String TokenStats :=
  let costs := get_token_costs g.config
  match costs_lookup costs "input" with
  | Except.error e => Except.error e
  | Except.ok input_price =>
    match costs_lookup costs "output" with
    | Except.error e => Except.error e
    | Except.ok output_price =>
      let input_cost := ((g.total_input_tokens : ℚ) / 1000) * input_price
      let output_cost := ((g.total_output_tokens : ℚ) / 1000) * output_price
      Except.ok
        (TokenStats.mk g.total_input_tokens g.total_output_tokens
          (g.total_input_tokens + g.total_output_tokens)
          (round4 (input_cost + output_cost)))

/-- Engine states reachable from `g` by any sequence of `process_turn` calls,
with arbitrary user inputs and arbitrary backend behaviour (successes and
failures both included, since a failing turn also mutates the transcript). -/
inductive ReachableFrom : GameEngine → GameEngine → Prop
  | refl (g : GameEngine) : ReachableFrom g g
  | step (env : Env) (u : String) (g g1 : GameEngine) :
      ReachableFrom g g1 → ReachableFrom g (process_turn env g1 u).2

/-- Concrete environment used to instantiate the theorems: every file read and
every chain call succeeds, and the state-extraction chain echoes its input. -/
def wEnv : Env where
  files := fun _ => Except.ok "FILE"
  character_chain := Except.ok "OPTS"
  story_chain := fun _ _ _ => Except.ok "STORY"
  state_chain := fun s => Except.ok s
  prompt_tokens := 10
  completion_tokens := 20

/-- Like `wEnv` but the state-extraction chain raises. -/
def wEnvStateFail : Env :=
  { wEnv with state_chain := fun _ => Except.error "boom" }

/-- Concrete engine with `max_history = 4` and an empty transcript. -/
def wEngine0 : GameEngine where
  config := { max_history := 4 }
  messages := []
  state_message := none
  total_input_tokens := 0
  total_output_tokens := 0

/-- Concrete engine with `max_history = 4` and a length-5 transcript
(system plus three turns), as in the truncation scenario of the spec. -/
def wEngine5 : GameEngine :=
  { wEngine0 with
    messages :=
      [Message.mk Role.system "S", Message.mk Role.human "h1",
       Message.mk Role.ai "a1", Message.mk Role.human "h2",
       Message.mk Role.ai "a2"] }

/-- Concrete engine configured for the OPENAI provider with some session
token counts accumulated. -/
def wEngineOpenAI : GameEngine :=
  { wEngine0 with
    config := { provider := ChatProvider.OPENAI },
    total_input_tokens := 1000,
    total_output_tokens := 2000 }

/-- Concrete engine configured for the OPENROUTER provider with the same
token counts. -/
def wEngineOpenRouter : GameEngine :=
  { wEngineOpenAI with config := { provider := ChatProvider.OPENROUTER } }

/-- An all-defaults configuration (OPENROUTER provider, no key, no base URL). -/
def wCfgDefault : ChatConfig := {}

/-- A configuration carrying an explicit API key. -/
def wCfgWithKey : ChatConfig := { api_key := some "sk-cfg" }

/-- An environment-variable map where only the OpenRouter key is set. -/
def wEnvVarsRouter (v : String) : Option String :=
  if v = "OPENROUTER_API_KEY" then some "sk-env" else none

/-- A nonempty list keeps its head under appending on the right. -/
theorem head_append_of_ne_nil (l l' : List Message) (h : l ≠ []) :
    (l ++ l').head? = l.head? := by
  cases l with
  | nil => exact absurd rfl h
  | cons a t => rfl

/-- The truncation step never changes the head of the transcript. -/
theorem truncate_messages_head (mh : Nat) (msgs : List Message) :
    (truncate_messages mh msgs).head? = msgs.head? := by
  simp only [truncate_messages]
  split
  · cases msgs with
    | nil => simp
    | cons a t => simp
  · rfl

/-- After the truncation step the transcript has at most
`max 4 mh + 1` entries. -/
theorem truncate_messages_length_le (mh : Nat) (msgs : List Message) :
    (truncate_messages mh msgs).length ≤ max 4 mh + 1 := by
  simp only [truncate_messages]
  split
  · next h =>
    simp only [List.length_append, List.length_take, List.length_drop]
    have h4 : 4 ≤ max 4 mh := Nat.le_max_left 4 mh
    omega
  · next h =>
    have hm : mh ≤ max 4 mh := Nat.le_max_right 4 mh
    omega

/-- Full characterization of a successful `process_turn`: given that both
chain calls succeed on the inputs the code passes them, the turn returns the
story text, appends the user and assistant messages, truncates, overwrites
the state message, and accumulates the token counts. -/
theorem process_turn_ok_eq (env : Env) (g : GameEngine) (u st cs : String)
    (hs : env.story_chain
        (format_conversation_history (g.messages ++ [Message.mk Role.human u]) true 1)
        g.state_message u = Except.ok st)
    (hc : env.state_chain
        (format_conversation_history (g.messages ++ [Message.mk Role.human u]) true 1
          ++ "\n\n" ++ st) = Except.ok cs) :
    process_turn env g u =
      (Except.ok st,
       { g with
         messages := truncate_messages g.config.max_history
           (g.messages ++ [Message.mk Role.human u, Message.mk Role.ai st]),
         state_message := some cs,
         total_input_tokens := g.total_input_tokens + env.prompt_tokens,
         total_output_tokens := g.total_output_tokens + env.completion_tokens }) := by
  simp only [process_turn, hs, hc]
  simp [List.append_assoc]

/-- If `process_turn` returns `ok st` then the resulting transcript is the
truncation of the old transcript plus the new user and assistant messages. -/
theorem process_turn_fst_ok (env : Env) (g : GameEngine) (u st : String)
    (h : (process_turn env g u).1 = Except.ok st) :
    (process_turn env g u).2.messages =
      truncate_messages g.config.max_history
        (g.messages ++ [Message.mk Role.human u, Message.mk Role.ai st]) := by
  simp only [process_turn] at h ⊢
  cases hs : env.story_chain
      (format_conversation_history (g.messages ++ [Message.mk Role.human u]) true 1)
      g.state_message u with
  | error e => simp only [hs] at h; exact absurd h (by simp)
  | ok s =>
    simp only [hs] at h ⊢
    cases hc : env.state_chain
        (format_conversation_history (g.messages ++ [Message.mk Role.human u]) true 1
          ++ "\n\n" ++ s) with
    | error e => simp only [hc] at h; exact absurd h (by simp)
    | ok c =>
      simp only [hc] at h ⊢
      have hst : s = st := by
        have h' : Except.ok (ε := String) s = Except.ok st := h
        exact Except.ok.inj h'
      subst hst
      simp [List.append_assoc]

/-- `process_turn` never changes the head of a nonempty transcript, whether
the chain calls succeed or fail. -/
theorem process_turn_messages_head (env : Env) (g : GameEngine) (u : String)
    (hne : g.messages ≠ []) :
    (process_turn env g u).2.messages.head? = g.messages.head? := by
  simp only [process_turn]
  cases hs : env.story_chain
      (format_conversation_history (g.messages ++ [Message.mk Role.human u]) true 1)
      g.state_message u with
  | error e => simp only [hs]; exact head_append_of_ne_nil _ _ hne
  | ok s =>
    simp only [hs]
    cases hc : env.state_chain
        (format_conversation_history (g.messages ++ [Message.mk Role.human u]) true 1
          ++ "\n\n" ++ s) with
    | error e => simp only [hc]; exact head_append_of_ne_nil _ _ hne
    | ok c =>
      simp only [hc]
      rw [truncate_messages_head]
      rw [head_append_of_ne_nil _ _ (by simp)]
      exact head_append_of_ne_nil _ _ hne

/-- If `process_turn` propagates an exception, the transcript gained exactly
the user message and the state message is untouched. -/
theorem process_turn_fst_error (env : Env) (g : GameEngine) (u e : String)
    (h : (process_turn env g u).1 = Except.error e) :
    (process_turn env g u).2.messages = g.messages ++ [Message.mk Role.human u]
    ∧ (process_turn env g u).2.state_message = g.state_message := by
  simp only [process_turn] at h ⊢
  cases hs : env.story_chain
      (format_conversation_history (g.messages ++ [Message.mk Role.human u]) true 1)
      g.state_message u with
  | error e2 => simp [hs]
  | ok s =>
    simp only [hs] at h ⊢
    cases hc : env.state_chain
        (format_conversation_history (g.messages ++ [Message.mk Role.human u]) true 1
          ++ "\n\n" ++ s) with
    | error e2 => simp [hc]
    | ok c => simp only [hc] at h; exact absurd h (by simp)

/-- On every success path of `initialize_game` the resulting transcript starts
with the system message. -/
theorem initialize_game_ok_head (env : Env) (g : GameEngine) (sel : Option String)
    (r : InitResult) (h : (initialize_game env g sel).1 = Except.ok r) :
    (initialize_game env g sel).2.messages.head?.map Message.role = some Role.system := by
  simp only [initialize_game] at h ⊢
  cases hcc : env.character_chain with
  | error e => simp only [hcc] at h; exact absurd h (by simp)
  | ok opts =>
    simp only [hcc] at h ⊢
    cases h1 : env.files g.config.system_prompt_path with
    | error e => simp only [h1] at h; exact absurd h (by simp)
    | ok sys =>
      simp only [h1] at h ⊢
      cases h2 : env.files "templates/character_setting_setup.md" with
      | error e => simp only [h2] at h; exact absurd h (by simp)
      | ok setup =>
        simp only [h2] at h ⊢
        cases sel with
        | none => simp
        | some s =>
          by_cases hs0 : s = ""
          · simp [hs0]
          · simp only [if_neg hs0] at h ⊢
            by_cases hsent : s ≠ "Start the adventure!"
            · simp only [if_pos hsent] at h ⊢
              split at h
              · next e heq => exact absurd h (by simp)
              · next ist heq => simp only [heq]; simp
            · simp only [if_neg hsent] at h ⊢
              simp

/-- The head of the transcript is preserved along any sequence of turns. -/
theorem reachable_head (g0 g1 : GameEngine) (hreach : ReachableFrom g0 g1)
    (h0 : g0.messages.head?.map Message.role = some Role.system) :
    g1.messages.head?.map Message.role = some Role.system := by
  induction hreach with
  | refl g2 => exact h0
  | step env2 u g2 g3 hr ih =>
    have hmid := ih h0
    have hne : g3.messages ≠ [] := by
      intro hnil
      rw [hnil] at hmid
      simp at hmid
    rw [process_turn_messages_head env2 g3 u hne]
    exact hmid

/-- C1 (counterexample): with `max_history = 4` and a transcript of length 5,
a successful `process_turn` leaves a transcript of length 5, strictly above
`max(4, max_history) = 4` — the claimed post-truncation bound
`length ≤ max(4, max_history)` is false on the code. -/
theorem C1_counterexample :
    (process_turn wEnv wEngine5 "go").1 = Except.ok "STORY"
    ∧ (process_turn wEnv wEngine5 "go").2.messages.length = 5
    ∧ max 4 wEngine5.config.max_history = 4
    ∧ (process_turn wEnv wEngine5 "go").2.messages.length >
        max 4 wEngine5.config.max_history :=
  ⟨rfl, rfl, rfl, by decide⟩

/-- C1 (amended): after a successful `process_turn`, truncation fires exactly
when the pre-truncation length `old + 2` exceeds `max_history`, keeps index 0
plus the last `max(4, max_history)` entries, the resulting length is at most
`max(4, max_history) + 1`, and the pinned head message survives. -/
theorem C1_transcript_truncation (env : Env) (g : GameEngine) (u st : String)
    (h : (process_turn env g u).1 = Except.ok st) (hne : g.messages ≠ []) :
    ((process_turn env g u).2.messages =
      if g.messages.length + 2 > g.config.max_history then
        (g.messages ++ [Message.mk Role.human u, Message.mk Role.ai st]).take 1 ++
          (g.messages ++ [Message.mk Role.human u, Message.mk Role.ai st]).drop
            (g.messages.length + 2 - max 4 g.config.max_history)
      else g.messages ++ [Message.mk Role.human u, Message.mk Role.ai st])
    ∧ (process_turn env g u).2.messages.length ≤ max 4 g.config.max_history + 1
    ∧ (process_turn env g u).2.messages.head? = g.messages.head? := by
  have hm := process_turn_fst_ok env g u st h
  have hlen : (g.messages ++ [Message.mk Role.human u, Message.mk Role.ai st]).length
      = g.messages.length + 2 := by simp
  refine ⟨?_, ?_, ?_⟩
  · rw [hm]
    simp only [truncate_messages]
    rw [hlen]
  · rw [hm]
    exact truncate_messages_length_le _ _
  · rw [hm, truncate_messages_head]
    exact head_append_of_ne_nil _ _ hne

/-- C1 (amended, witness): the amended bound holds at the concrete truncation
scenario. -/
theorem C1_transcript_truncation_witness :
    (process_turn wEnv wEngine5 "go").1 = Except.ok "STORY" ∧
    (process_turn wEnv wEngine5 "go").2.messages.length ≤
      max 4 wEngine5.config.max_history + 1 :=
  ⟨rfl, (C1_transcript_truncation wEnv wEngine5 "go" "STORY" rfl (by decide)).2.1⟩

/-- C2 (counterexample): `initialize_game` with the sentinel selection does
not leave the transcript at the initial triple — the sentinel selection itself
is appended as a fourth, user message (line 93 of `game_engine.py` runs for
every truthy selection). -/
theorem C2_counterexample :
    (initialize_game wEnv wEngine0 (some "Start the adventure!")).1 =
      Except.ok (InitResult.mk "OPTS" "")
    ∧ (initialize_game wEnv wEngine0 (some "Start the adventure!")).2.messages =
      [Message.mk Role.system "FILE", Message.mk Role.human "FILE",
       Message.mk Role.ai "OPTS", Message.mk Role.human "Start the adventure!"]
    ∧ (initialize_game wEnv wEngine0 (some "Start the adventure!")).2.messages.length = 4 :=
  ⟨rfl, rfl, rfl⟩

/-- C2 (amended): with the sentinel selection, `initialize_game` returns
`initial_story = ""`, makes no story-continuation call (the result does not
depend on `story_chain` or `state_chain` at all), and leaves the transcript
equal to the initial triple plus one user message holding the selection. -/
theorem C2_sentinel_no_story (env : Env) (g : GameEngine) (opts sys setup : String)
    (hcc : env.character_chain = Except.ok opts)
    (h1 : env.files g.config.system_prompt_path = Except.ok sys)
    (h2 : env.files "templates/character_setting_setup.md" = Except.ok setup) :
    initialize_game env g (some "Start the adventure!") =
      (Except.ok (InitResult.mk opts ""),
       { g with messages :=
          [Message.mk Role.system sys, Message.mk Role.human setup,
           Message.mk Role.ai opts, Message.mk Role.human "Start the adventure!"] }) := by
  simp only [initialize_game, hcc, h1, h2]
  rw [if_neg (by decide : ¬("Start the adventure!" = ""))]
  rw [if_neg (show ¬("Start the adventure!" ≠ "Start the adventure!") by decide)]
  rfl

/-- C2 (amended, witness): the amended description at the concrete
environment. -/
theorem C2_sentinel_no_story_witness :
    initialize_game wEnv wEngine0 (some "Start the adventure!") =
      (Except.ok (InitResult.mk "OPTS" ""),
       { wEngine0 with messages :=
          [Message.mk Role.system "FILE", Message.mk Role.human "FILE",
           Message.mk Role.ai "OPTS", Message.mk Role.human "Start the adventure!"] }) :=
  C2_sentinel_no_story wEnv wEngine0 "OPTS" "FILE" "FILE" rfl rfl rfl

/-- C3: if the state-extraction call raises, the exception propagates as the
result of `process_turn`, the transcript contains exactly the user message
appended at step 1 (and no new assistant message), and the state message is
unchanged. -/
theorem C3_extraction_failure (env : Env) (g : GameEngine) (u st e : String)
    (hs : env.story_chain
        (format_conversation_history (g.messages ++ [Message.mk Role.human u]) true 1)
        g.state_message u = Except.ok st)
    (hc : env.state_chain
        (format_conversation_history (g.messages ++ [Message.mk Role.human u]) true 1
          ++ "\n\n" ++ st) = Except.error e) :
    (process_turn env g u).1 = Except.error e
    ∧ (process_turn env g u).2.messages = g.messages ++ [Message.mk Role.human u]
    ∧ (process_turn env g u).2.state_message = g.state_message := by
  simp [process_turn, hs, hc]

/-- C3 (witness): the failure behaviour at a concrete environment whose
state-extraction chain raises. -/
theorem C3_extraction_failure_witness :
    (process_turn wEnvStateFail wEngine5 "go").1 = Except.error "boom"
    ∧ (process_turn wEnvStateFail wEngine5 "go").2.messages =
        wEngine5.messages ++ [Message.mk Role.human "go"]
    ∧ (process_turn wEnvStateFail wEngine5 "go").2.state_message =
        wEngine5.state_message :=
  C3_extraction_failure wEnvStateFail wEngine5 "go" "STORY" "boom" rfl rfl

/-- C4: every `process_turn` appends exactly one user message; on success the
transcript handed to the truncation step is the old transcript plus exactly
one user and one assistant message, hence prior length plus two. -/
theorem C4_net_two_appends (env : Env) (g : GameEngine) (u : String) :
    (∀ st, (process_turn env g u).1 = Except.ok st →
      (process_turn env g u).2.messages =
        truncate_messages g.config.max_history
          (g.messages ++ [Message.mk Role.human u, Message.mk Role.ai st])
      ∧ (g.messages ++ [Message.mk Role.human u, Message.mk Role.ai st]).length =
          g.messages.length + 2)
    ∧ (∀ e, (process_turn env g u).1 = Except.error e →
      (process_turn env g u).2.messages = g.messages ++ [Message.mk Role.human u]) := by
  constructor
  · intro st h
    exact ⟨process_turn_fst_ok env g u st h, by simp⟩
  · intro e h
    exact (process_turn_fst_error env g u e h).1

/-- C4 (witness): the net +2 shape at the concrete successful turn. -/
theorem C4_net_two_appends_witness :
    (process_turn wEnv wEngine5 "go").1 = Except.ok "STORY" ∧
    (wEngine5.messages ++
      [Message.mk Role.human "go", Message.mk Role.ai "STORY"]).length =
      wEngine5.messages.length + 2 :=
  ⟨rfl, ((C4_net_two_appends wEnv wEngine5 "go").1 "STORY" rfl).2⟩

/-- C5: after any successful `initialize_game`, every engine state reachable
by further `process_turn` calls (successful or failing, any backend) keeps the
system message at index 0 of the transcript. -/
theorem C5_system_pinned (env : Env) (g g1 : GameEngine) (sel : Option String)
    (r : InitResult)
    (hinit : (initialize_game env g sel).1 = Except.ok r)
    (hreach : ReachableFrom (initialize_game env g sel).2 g1) :
    g1.messages.head?.map Message.role = some Role.system :=
  reachable_head _ _ hreach (initialize_game_ok_head env g sel r hinit)

/-- C5 (witness): the pinned system message after one concrete turn following
a concrete initialization. -/
theorem C5_system_pinned_witness :
    ((process_turn wEnv (initialize_game wEnv wEngine0 none).2 "go").2).messages.head?.map
      Message.role = some Role.system :=
  C5_system_pinned wEnv wEngine0 _ none (InitResult.mk "OPTS" "") rfl
    (ReachableFrom.step wEnv "go" _ _ (ReachableFrom.refl _))

/-- C6: after a successful turn the state message equals exactly the output of
that turn's state-extraction call — it is overwritten, never accumulated. -/
theorem C6_state_overwrite (env : Env) (g : GameEngine) (u st cs : String)
    (hs : env.story_chain
        (format_conversation_history (g.messages ++ [Message.mk Role.human u]) true 1)
        g.state_message u = Except.ok st)
    (hc : env.state_chain
        (format_conversation_history (g.messages ++ [Message.mk Role.human u]) true 1
          ++ "\n\n" ++ st) = Except.ok cs) :
    (process_turn env g u).1 = Except.ok st
    ∧ (process_turn env g u).2.state_message = some cs := by
  rw [process_turn_ok_eq env g u st cs hs hc]
  exact ⟨rfl, rfl⟩

/-- C6 (witness): the overwritten state at the concrete environment. -/
theorem C6_state_overwrite_witness :
    (process_turn wEnv wEngine5 "go").2.state_message =
      some "User: h1\nAssistant: a1\nUser: h2\nAssistant: a2\nUser: go\n\nSTORY" :=
  (C6_state_overwrite wEnv wEngine5 "go" "STORY"
    "User: h1\nAssistant: a1\nUser: h2\nAssistant: a2\nUser: go\n\nSTORY" rfl rfl).2

/-- C7: the history context is the transcript minus the index-0 system
message, rendered one message per line as `"User: c"` / `"Assistant: c"`, and
the state-extraction call receives exactly `history ++ "\n\n" ++ storyText`
(observed here through an echoing extraction chain). -/
theorem C7_history_rendering (env : Env) (g : GameEngine) (u st : String)
    (hecho : env.state_chain = fun s => Except.ok s)
    (hs : env.story_chain
        (String.intercalate "\n"
          (((g.messages ++ [Message.mk Role.human u]).drop 1).map (fun m =>
            (if m.role = Role.human then "User" else "Assistant") ++ ": " ++ m.content)))
        g.state_message u = Except.ok st) :
    (process_turn env g u).2.state_message =
      some (String.intercalate "\n"
          (((g.messages ++ [Message.mk Role.human u]).drop 1).map (fun m =>
            (if m.role = Role.human then "User" else "Assistant") ++ ": " ++ m.content))
        ++ "\n\n" ++ st) := by
  have hfmt : format_conversation_history (g.messages ++ [Message.mk Role.human u]) true 1 =
      String.intercalate "\n"
        (((g.messages ++ [Message.mk Role.human u]).drop 1).map (fun m =>
          (if m.role = Role.human then "User" else "Assistant") ++ ": " ++ m.content)) := rfl
  have hc : env.state_chain
      (format_conversation_history (g.messages ++ [Message.mk Role.human u]) true 1
        ++ "\n\n" ++ st) =
      Except.ok (format_conversation_history (g.messages ++ [Message.mk Role.human u]) true 1
        ++ "\n\n" ++ st) := by rw [hecho]
  rw [process_turn_ok_eq env g u st _ (by rw [hfmt]; exact hs) hc]
  rw [hfmt]

/-- C7 (witness): the rendered history and extraction input at the concrete
environment. -/
theorem C7_history_rendering_witness :
    (process_turn wEnv wEngine5 "go").2.state_message =
      some ("User: h1\nAssistant: a1\nUser: h2\nAssistant: a2\nUser: go"
        ++ "\n\n" ++ "STORY") :=
  C7_history_rendering wEnv wEngine5 "go" "STORY" rfl rfl

/-- C8: with `max_history = 4` and a length-5 transcript, one successful turn
yields a pre-truncation transcript of length 7, and truncation keeps the
system message plus the last `max(4, 4) = 4` entries, giving length 5. -/
theorem C8_truncation_scenario :
    (process_turn wEnv wEngine5 "go").1 = Except.ok "STORY"
    ∧ (wEngine5.messages ++
        [Message.mk Role.human "go", Message.mk Role.ai "STORY"]).length = 7
    ∧ (process_turn wEnv wEngine5 "go").2.messages =
        [Message.mk Role.system "S", Message.mk Role.human "h2",
         Message.mk Role.ai "a2", Message.mk Role.human "go",
         Message.mk Role.ai "STORY"]
    ∧ (process_turn wEnv wEngine5 "go").2.messages.length = 5 :=
  ⟨rfl, rfl, rfl, rfl⟩

/-- C9: with no configured key and the provider environment variable unset,
`get_api_key` raises the missing-key `ValueError` and so does the backend
factory `get_chat_provider`; a truthy configured key, or a truthy value of the
provider environment variable, is returned unchanged. -/
theorem C9_api_key (env_vars : String → Option String) (cfg : ChatConfig) :
    (cfg.api_key = none → env_vars (api_key_map cfg.provider) = none →
      get_api_key env_vars cfg =
        Except.error ("Missing API key for provider " ++ providerStr cfg.provider)
      ∧ get_chat_provider env_vars cfg =
        Except.error ("Missing API key for provider " ++ providerStr cfg.provider))
    ∧ (∀ k, k ≠ "" → cfg.api_key = some k → get_api_key env_vars cfg = Except.ok k)
    ∧ (∀ k, k ≠ "" → cfg.api_key = none →
        env_vars (api_key_map cfg.provider) = some k →
        get_api_key env_vars cfg = Except.ok k) := by
  refine ⟨?_, ?_, ?_⟩
  · intro hak henv
    have hga : get_api_key env_vars cfg =
        Except.error ("Missing API key for provider " ++ providerStr cfg.provider) := by
      simp only [get_api_key, hak, env_api_key, henv]
    exact ⟨hga, by simp only [get_chat_provider, hga]⟩
  · intro k hk hak
    simp only [get_api_key, hak, if_neg hk]
  · intro k hk hak henv
    simp only [get_api_key, hak, env_api_key, henv, if_neg hk]

/-- C9 (witness): concrete missing-key failure and concrete successes from the
configuration and from the environment. -/
theorem C9_api_key_witness :
    get_api_key (fun _ => none) wCfgDefault =
      Except.error "Missing API key for provider ChatProvider.OPENROUTER"
    ∧ get_chat_provider (fun _ => none) wCfgDefault =
      Except.error "Missing API key for provider ChatProvider.OPENROUTER"
    ∧ get_api_key (fun _ => none) wCfgWithKey = Except.ok "sk-cfg"
    ∧ get_api_key wEnvVarsRouter wCfgDefault = Except.ok "sk-env" := by
  refine ⟨?_, ?_, ?_, ?_⟩
  · exact ((C9_api_key (fun _ => none) wCfgDefault).1 rfl rfl).1
  · exact ((C9_api_key (fun _ => none) wCfgDefault).1 rfl rfl).2
  · exact (C9_api_key (fun _ => none) wCfgWithKey).2.1 "sk-cfg" (by decide) rfl
  · exact (C9_api_key wEnvVarsRouter wCfgDefault).2.2 "sk-env" (by decide) rfl rfl

/-- C10 (code bug): for the OPENAI provider, `get_token_costs` returns the
whole per-model price table, so `costs["input"]` in `get_token_stats` raises
`KeyError` instead of producing a cost; for a flat-table provider such as
OPENROUTER the stats are returned with the claimed rounded cost formula
((1000/1000)*0.001 + (2000/1000)*0.002 = 0.005 = 1/200). -/
theorem C10_token_stats :
    get_token_stats wEngineOpenAI = Except.error "KeyError: input"
    ∧ get_token_stats wEngineOpenRouter =
        Except.ok (TokenStats.mk 1000 2000 3000 (1 / 200)) :=
  ⟨rfl, by
    have h1 : ¬("output" = "input") := by decide
    norm_num [get_token_stats, wEngineOpenRouter, wEngineOpenAI, wEngine0,
      get_token_costs, costs_lookup, round4, h1]⟩

end AdventureGame
